import Mathlib

/-!
Verification of the hoardify-api adaptive polling and deduplication engine.

The Python sources are shallowly embedded: the Mongo `plays` collection is a
list of play documents whose (track_id, played_at_rounded) key is kept unique
by the `track_played_unique` index; `upsert_play` from
`app/services/plays.py` becomes a pure function from a store to a store plus
the "was inserted" flag; the live-poll and backfill jobs from
`app/scheduler/jobs/spotify.py` become pure functions over an explicit system
state (durable store, ephemeral cache, last-track marker) that also emit a
trace of side-effect events, so that ordering and reschedule properties can be
stated.
-/

namespace Hoardify

/-- Model of a Python `datetime`: `minute` counts minutes since some epoch
(absorbing year/month/day/hour), with `second` and `microsecond` kept as
separate fields so that `dt.replace(second=0, microsecond=0)` is expressible
field by field. -/
structure DateTime where
  minute : Nat
  second : Nat
  microsecond : Nat
deriving DecidableEq, Repr

/-- `played_at.replace(second=0, microsecond=0)` from `upsert_play`. -/
def truncToMinute (dt : DateTime) : DateTime :=
  { dt with second := 0, microsecond := 0 }

/-- The play payload handed to `upsert_play` / `insert_play`: the required
dict keys of `app/services/plays.py` plus the optional ones read with
`.get`. -/
structure PlayInput where
  track_id : String
  name : String
  artists : List String
  artist_ids : List String
  album : String
  album_art : Option String
  duration_ms : Int
  played_at : DateTime
  played_at_rounded : Option DateTime
  device_name : Option String
  device_type : Option String
  context_type : Option String
  context_uri : Option String
  shuffle_state : Option Bool
  album_id : Option String
deriving DecidableEq, Repr

/-- A stored document of the `plays` collection.  `created_at` comes from the
`$setOnInsert` clause; the five optional playback-context fields are `none`
when never written. -/
structure PlayDoc where
  track_id : String
  name : String
  artists : List String
  artist_ids : List String
  album : String
  album_art : Option String
  duration_ms : Int
  played_at : DateTime
  played_at_rounded : DateTime
  created_at : DateTime
  device_name : Option String
  device_type : Option String
  context_type : Option String
  context_uri : Option String
  shuffle_state : Option Bool
deriving DecidableEq, Repr

/-- The dedup bucket used in `filter_doc`: the supplied `played_at_rounded`
if any, else `played_at` truncated to the minute. -/
def playBucket (p : PlayInput) : DateTime :=
  match p.played_at_rounded with
  | some r => r
  | none => truncToMinute p.played_at

/-- The `filter_doc` predicate: match on (track_id, played_at_rounded). -/
def playMatches (tid : String) (b : DateTime) (d : PlayDoc) : Bool :=
  d.track_id == tid && d.played_at_rounded == b

/-- Look up the (unique-indexed) play for a key. -/
def findPlay (plays : List PlayDoc) (tid : String) (b : DateTime) : Option PlayDoc :=
  plays.find? (playMatches tid b)

/-- How many stored plays carry a given (track_id, dedup bucket) key. -/
def countKey (plays : List PlayDoc) (tid : String) (b : DateTime) : Nat :=
  (plays.filter (playMatches tid b)).length

/-- Apply an update to every play matching the key (the unique index makes at
most one match in well-formed stores, mirroring `update_one`). -/
def updateMatching (plays : List PlayDoc) (tid : String) (b : DateTime)
    (f : PlayDoc → PlayDoc) : List PlayDoc :=
  plays.map (fun d => if playMatches tid b d then f d else d)

/-- The `$set` clause of `upsert_play` applied to an existing document: the
eight unconditional fields are overwritten, and each of the five optional
fields is included only when present in the payload (`if play.get(...) is not
None`), otherwise the stored value is left as is. -/
def applySet (p : PlayInput) (b : DateTime) (d : PlayDoc) : PlayDoc :=
  { d with
    name := p.name
    artists := p.artists
    artist_ids := p.artist_ids
    album := p.album
    album_art := p.album_art
    duration_ms := p.duration_ms
    played_at := p.played_at
    played_at_rounded := b
    device_name := match p.device_name with | some v => some v | none => d.device_name
    device_type := match p.device_type with | some v => some v | none => d.device_type
    context_type := match p.context_type with | some v => some v | none => d.context_type
    context_uri := match p.context_uri with | some v => some v | none => d.context_uri
    shuffle_state := match p.shuffle_state with | some v => some v | none => d.shuffle_state }

/-- The document created when the upsert inserts: `$setOnInsert`
(track_id, created_at := now) together with the `$set` clause. -/
def newPlayDoc (p : PlayInput) (b : DateTime) (now : DateTime) : PlayDoc :=
  { track_id := p.track_id
    name := p.name
    artists := p.artists
    artist_ids := p.artist_ids
    album := p.album
    album_art := p.album_art
    duration_ms := p.duration_ms
    played_at := p.played_at
    played_at_rounded := b
    created_at := now
    device_name := p.device_name
    device_type := p.device_type
    context_type := p.context_type
    context_uri := p.context_uri
    shuffle_state := p.shuffle_state }

/-- `upsert_play` from `app/services/plays.py`: upsert one play keyed by
(track_id, dedup bucket); returns `true` iff a new document was inserted
(`result.upserted_id is not None`), together with the updated store.  `now`
stands for `datetime.now(timezone.utc)` used by `$setOnInsert`. -/
def upsert_play (now : DateTime) (plays : List PlayDoc) (p : PlayInput) :
    Bool × List PlayDoc :=
  let b := playBucket p
  match findPlay plays p.track_id b with
  | some _ => (false, updateMatching plays p.track_id b (applySet p b))
  | none => (true, plays ++ [newPlayDoc p b now])

/-- Modelled from the spec: `insert_play` is imported by the scheduler jobs
from `app.services.plays` but its definition is not among the provided
sources.  Per §4.2 (`backfillListen` has the same upsert semantics and
"returns whether the Play was newly inserted") and the call-site comment
"Insert play - returns True if new, False if duplicate", it has exactly the
semantics of `upsert_play`. -/
def insert_play (now : DateTime) (plays : List PlayDoc) (p : PlayInput) :
    Bool × List PlayDoc :=
  upsert_play now plays p

/-- A document of the `tracks` collection (spec §3: identifier, display
metadata, cumulative listen_count). -/
structure TrackDoc where
  track_id : String
  name : String
  artists : List String
  album : String
  album_art : Option String
  listen_count : Nat
deriving DecidableEq, Repr

/-- Modelled from the spec: `upsert_track` is imported by the scheduler jobs
from `app.services.plays` but its definition is not among the provided
sources.  Per §4.2 (`recordLiveListen`): it upserts the Track's display
metadata keyed by track identifier, increments `listen_count` exactly when
`increment_count` is set (on insert the count starts at 1 when incrementing,
else 0), and returns whether the Track document was newly created. -/
def upsert_track (tracks : List TrackDoc) (p : PlayInput) (increment_count : Bool) :
    Bool × List TrackDoc :=
  match tracks.find? (fun t => t.track_id == p.track_id) with
  | some _ =>
      (false, tracks.map (fun t =>
        if t.track_id == p.track_id then
          { t with
            name := p.name
            artists := p.artists
            album := p.album
            album_art := p.album_art
            listen_count := t.listen_count + (if increment_count then 1 else 0) }
        else t))
  | none =>
      (true, tracks ++ [{ track_id := p.track_id
                          name := p.name
                          artists := p.artists
                          album := p.album
                          album_art := p.album_art
                          listen_count := if increment_count then 1 else 0 }])

/-- The `listen_count` recorded for a track identifier (0 when absent). -/
def listenCountOf (tracks : List TrackDoc) (tid : String) : Nat :=
  match tracks.find? (fun t => t.track_id == tid) with
  | some t => t.listen_count
  | none => 0

/-- The `now_playing` half of the payload returned by the external
"current playback" query (as consumed by `poll_current_playback`). -/
structure NowPlayingInfo where
  title : String
  artist : String
  album : String
  album_art : Option String
  is_playing : Bool
  progress_ms : Int
  duration_ms : Int
deriving DecidableEq, Repr

/-- Modelled from the spec: the rendered display payload produced by
`generate_now_playing_svg` (a renderable value built from title, artist,
album art URL and playing flag, §6). -/
structure SvgPayload where
  title : String
  artist : String
  album_art : Option String
  is_playing : Bool
deriving DecidableEq, Repr

/-- Modelled from the spec: `generate_now_playing_svg` renders the snapshot
fields into a rendered payload cached verbatim (§6). -/
def generate_now_playing_svg (title artist : String) (album_art : Option String)
    (is_playing : Bool) : SvgPayload :=
  ⟨title, artist, album_art, is_playing⟩

/-- The `data` returned by `get_current_playback`: the `now_playing` dict and
the `play` dict. -/
structure PlaybackData where
  now_playing : NowPlayingInfo
  play : PlayInput
deriving DecidableEq, Repr

/-- Outcome of the timeout-bounded external "current playback" call:
it can exceed the 10-second bound (`asyncio.TimeoutError`), raise some other
exception, report nothing playing (falsy `data`), or report a playing
track. -/
inductive PlaybackResp
  | timeout
  | raised
  | nothing
  | playing (d : PlaybackData)
deriving DecidableEq, Repr

/-- Environment of one live-poll cycle: everything the cycle reads from the
outside world.  `dbFails` injects an exception thrown partway through the
cycle (at the durable-store block, after the external call succeeded);
`artistsSynced` / `albumSynced` are the values the enrichment helpers would
return; `schedulerPresent` models whether the module-level scheduler handle
is set. -/
structure PollEnv where
  hasToken : Bool
  playback : PlaybackResp
  dbFails : Bool
  artistsSynced : Nat
  albumSynced : Nat
  schedulerPresent : Bool
  now : DateTime
deriving DecidableEq, Repr

/-- The state touched by the jobs: the durable store (plays, tracks), the
ephemeral cache entries (now-playing snapshot and rendered payload, each with
its TTL in seconds), the pre-cached album-art URLs, and the Last-Track
Marker (`spotify:last_track_id`). -/
structure SysState where
  plays : List PlayDoc
  tracks : List TrackDoc
  nowPlayingCache : Option (NowPlayingInfo × Int)
  svgCache : Option (SvgPayload × Int)
  albumArt : List String
  lastTrack : Option String
deriving DecidableEq, Repr

/-- Side-effect events of one cycle, in program order. -/
inductive Event
  | apiCall
  | cacheSet (ttl : Int)
  | cacheClear
  | svgSet (ttl : Int)
  | svgClear
  | albumArtEnsure
  | trackUpsert (tid : String) (increment : Bool)
  | playUpsert (tid : String) (wasNew : Bool)
  | markerSet (tid : String)
  | markerClear
  | scheduleNext (delay : Nat)
deriving DecidableEq, Repr

/-- `status` field of a job's status record. -/
inductive JobStatus
  | ok
  | skipped
  | error
deriving DecidableEq, Repr

/-- The status record returned by `poll_current_playback`. -/
structure PollResult where
  status : JobStatus
  reason : Option String
  playing : Option Bool
  new_listen : Option Bool
deriving DecidableEq, Repr

/-- Result of a full cycle: the returned status record, the final state, the
event trace, and the cycle's `requests_made` counter. -/
structure PollOutcome where
  result : PollResult
  state : SysState
  events : List Event
  requests : Nat
deriving DecidableEq, Repr

/-- The TTL computed by the poll cycle:
`max((duration_ms - progress_ms) // 1000 + 30, 60)` (Python floor
division). -/
def cacheTtl (np : NowPlayingInfo) : Int :=
  max (Int.fdiv (np.duration_ms - np.progress_ms) 1000 + 30) 60

/-- Modelled from the spec: `ensure_album_art_cached` pre-caches the album
art URL for the dashboard grid (idempotent insertion into the cache). -/
def ensure_album_art_cached (arts : List String) (url : Option String) : List String :=
  match url with
  | none => arts
  | some u => if arts.contains u then arts else arts ++ [u]

/-- The body of `poll_current_playback` (the `try` block): returns the status
record, the state after the body, the emitted events, and `requests_made`.
Mirrors `app/scheduler/jobs/spotify.py` line by line: token check, timeout-
bounded external call, nothing-playing cleanup, cache and SVG writes with the
computed TTL, album-art pre-cache, track-change detection against the marker,
and on a new listen the `upsert_track(increment_count=True)` /
`insert_play` writes followed by the marker update.  Cache writes use the
spec-modelled semantics of `cache_now_playing` / `cache_now_playing_svg`
(store value with TTL; clear on `None`, §4.3). -/
def pollBody (env : PollEnv) (s : SysState) :
    PollResult × SysState × List Event × Nat :=
  if !env.hasToken then
    (⟨.skipped, some "not authenticated", none, none⟩, s, [], 0)
  else
    match env.playback with
    | .timeout => (⟨.error, some "spotify api timeout", none, none⟩, s, [], 0)
    | .raised => (⟨.error, some "exception", none, none⟩, s, [], 0)
    | .nothing =>
        (⟨.ok, none, some false, none⟩,
         { s with nowPlayingCache := none, svgCache := none, lastTrack := none },
         [.apiCall, .cacheClear, .svgClear, .markerClear], 1)
    | .playing d =>
        let np := d.now_playing
        let p := d.play
        let tid := p.track_id
        let ttl := cacheTtl np
        let svg := generate_now_playing_svg np.title np.artist np.album_art np.is_playing
        let s3 := { s with
          nowPlayingCache := some (np, ttl)
          svgCache := some (svg, ttl)
          albumArt := ensure_album_art_cached s.albumArt np.album_art }
        let evs0 : List Event := [.apiCall, .cacheSet ttl, .svgSet ttl, .albumArtEnsure]
        if s.lastTrack = some tid then
          (⟨.ok, none, some true, some false⟩, s3, evs0, 1)
        else if env.dbFails then
          (⟨.error, some "db exception", none, none⟩, s3, evs0, 1)
        else
          let tr := upsert_track s3.tracks p true
          let pl := insert_play env.now s3.plays p
          let enrich :=
            if tr.1 then
              (if env.artistsSynced > 0 then 1 else 0) +
              (if env.albumSynced > 0 then 1 else 0)
            else 0
          let s4 := { s3 with tracks := tr.2, plays := pl.2, lastTrack := some tid }
          (⟨.ok, none, some true, some true⟩, s4,
           evs0 ++ [.trackUpsert tid true, .playUpsert tid pl.1, .markerSet tid],
           1 + enrich)

/-- `_schedule_next_poll`: emits one reschedule with delay 2 when
`requests_made > 1`, else 1; a missing scheduler handle means no job is
armed. -/
def scheduleNextPoll (requests_made : Nat) (schedulerPresent : Bool) : List Event :=
  if schedulerPresent then
    [Event.scheduleNext (if requests_made > 1 then 2 else 1)]
  else []

/-- `poll_current_playback`: the body followed by the `finally` block, which
always calls `_schedule_next_poll(requests_made, ...)` exactly once. -/
def poll_current_playback (env : PollEnv) (s : SysState) : PollOutcome :=
  let r := pollBody env s
  ⟨r.1, r.2.1, r.2.2.1 ++ scheduleNextPoll r.2.2.2 env.schedulerPresent, r.2.2.2⟩

/-- Environment of one backfill run: token availability and the page of
recent-history items fetched from the source. -/
structure BackfillEnv where
  hasToken : Bool
  items : List PlayInput
  now : DateTime
deriving DecidableEq, Repr

/-- Per-item record of what the backfill loop did: the play-upsert result and
the `increment_count` flag passed to the track upsert. -/
structure ItemOutcome where
  track_id : String
  wasNew : Bool
  incremented : Bool
deriving DecidableEq, Repr

/-- The status record returned by `poll_recently_played`. -/
structure BackfillResult where
  status : JobStatus
  reason : Option String
  inserted : Nat
  skipped : Nat
deriving DecidableEq, Repr

/-- One iteration of the backfill loop: `insert_play`, then on a new play
increment `inserted` and `upsert_track(increment_count=True)`, otherwise
increment `skipped` and `upsert_track(increment_count=False)`. -/
def backfillStep (now : DateTime) (acc : SysState × Nat × Nat × List ItemOutcome)
    (p : PlayInput) : SysState × Nat × Nat × List ItemOutcome :=
  let s := acc.1
  let pl := insert_play now s.plays p
  let s2 := { s with plays := pl.2 }
  if pl.1 then
    ({ s2 with tracks := (upsert_track s2.tracks p true).2 },
     acc.2.1 + 1, acc.2.2.1, acc.2.2.2 ++ [⟨p.track_id, true, true⟩])
  else
    ({ s2 with tracks := (upsert_track s2.tracks p false).2 },
     acc.2.1, acc.2.2.1 + 1, acc.2.2.2 ++ [⟨p.track_id, false, false⟩])

/-- `poll_recently_played`: skip without a token; report zero counts on an
empty history page; otherwise fold the backfill loop over the fetched items
and report the aggregated inserted/skipped counts. -/
def poll_recently_played (env : BackfillEnv) (s : SysState) :
    BackfillResult × SysState × List ItemOutcome :=
  if !env.hasToken then
    (⟨.skipped, some "not authenticated", 0, 0⟩, s, [])
  else if env.items.isEmpty then
    (⟨.ok, none, 0, 0⟩, s, [])
  else
    let r := env.items.foldl (backfillStep env.now) (s, 0, 0, [])
    (⟨.ok, none, r.2.1, r.2.2.1⟩, r.1, r.2.2.2)

/-! ### Event predicates -/

/-- Is this event a reschedule of the poll job. -/
def isSchedule : Event → Bool
  | .scheduleNext _ => true
  | _ => false

/-- Is this event a now-playing cache write. -/
def isCacheWrite : Event → Bool
  | .cacheSet _ => true
  | _ => false

/-- Is this event a Play upsert. -/
def isPlayWrite : Event → Bool
  | .playUpsert _ _ => true
  | _ => false

/-- Is this event a Track upsert. -/
def isTrackWrite : Event → Bool
  | .trackUpsert _ _ => true
  | _ => false

/-- Is this event a Last-Track Marker write. -/
def isMarkerWrite : Event → Bool
  | .markerSet _ => true
  | _ => false

/-! ### Concrete instances used by witnesses and counterexamples -/

/-- A concrete play used to instantiate the idempotence theorem. -/
def pWit : PlayInput :=
  { track_id := "trk1"
    name := "Song"
    artists := ["A"]
    artist_ids := ["a1"]
    album := "Alb"
    album_art := none
    duration_ms := 200000
    played_at := ⟨720, 5, 0⟩
    played_at_rounded := none
    device_name := none
    device_type := none
    context_type := none
    context_uri := none
    shuffle_state := none
    album_id := none }

/-- The stored document used to instantiate the optional-fields theorem. -/
def dWit : PlayDoc :=
  { track_id := "trk9"
    name := "Old Name"
    artists := ["A"]
    artist_ids := ["a1"]
    album := "Alb"
    album_art := none
    duration_ms := 180000
    played_at := ⟨800, 2, 0⟩
    played_at_rounded := ⟨800, 0, 0⟩
    created_at := ⟨799, 0, 0⟩
    device_name := some "Phone"
    device_type := some "smartphone"
    context_type := none
    context_uri := none
    shuffle_state := some true }

/-- A payload for the same key omitting every optional field. -/
def pWit9 : PlayInput :=
  { track_id := "trk9"
    name := "New Name"
    artists := ["A"]
    artist_ids := ["a1"]
    album := "Alb"
    album_art := none
    duration_ms := 180000
    played_at := ⟨800, 40, 0⟩
    played_at_rounded := none
    device_name := none
    device_type := none
    context_type := none
    context_uri := none
    shuffle_state := none
    album_id := none }

/-- First concrete poll of the dedup example: 12:00:05 (minute 720). -/
def pDedup1 : PlayInput :=
  { track_id := "trk7"
    name := "Song"
    artists := ["A"]
    artist_ids := ["a1"]
    album := "Alb"
    album_art := none
    duration_ms := 200000
    played_at := ⟨720, 5, 0⟩
    played_at_rounded := none
    device_name := none
    device_type := none
    context_type := none
    context_uri := none
    shuffle_state := none
    album_id := none }

/-- Second concrete poll of the dedup example: 12:00:42. -/
def pDedup2 : PlayInput :=
  { pDedup1 with played_at := ⟨720, 42, 0⟩ }

/-- Third concrete poll of the dedup example: 12:01:05 (minute 721). -/
def pDedup3 : PlayInput :=
  { pDedup1 with played_at := ⟨721, 5, 0⟩ }

/-- An empty system state. -/
def s0 : SysState :=
  { plays := []
    tracks := []
    nowPlayingCache := none
    svgCache := none
    albumArt := []
    lastTrack := none }

/-- A concrete now-playing payload: duration 200000 ms, progress 10000 ms. -/
def npLive : NowPlayingInfo :=
  { title := "Song B"
    artist := "Artist"
    album := "Alb"
    album_art := none
    is_playing := true
    progress_ms := 10000
    duration_ms := 200000 }

/-- The play payload reported together with `npLive` (track "B" at minute
900, i.e. bucket ⟨900, 0, 0⟩). -/
def playLive : PlayInput :=
  { track_id := "B"
    name := "Song B"
    artists := ["Artist"]
    artist_ids := []
    album := "Alb"
    album_art := none
    duration_ms := 200000
    played_at := ⟨900, 30, 0⟩
    played_at_rounded := none
    device_name := none
    device_type := none
    context_type := none
    context_uri := none
    shuffle_state := none
    album_id := none }

/-- A live-poll environment observing `playLive` with a cached token, no
injected failure and the scheduler handle set. -/
def envPlay : PollEnv :=
  { hasToken := true
    playback := .playing ⟨npLive, playLive⟩
    dbFails := false
    artistsSynced := 0
    albumSynced := 0
    schedulerPresent := true
    now := ⟨900, 31, 0⟩ }

/-- The same environment when the external call times out. -/
def envTimeout : PollEnv :=
  { envPlay with playback := .timeout }

/-- A Play for ("B", bucket ⟨900, 0, 0⟩) already in the durable store — the
same key `playLive` maps to. -/
def docDup : PlayDoc :=
  { track_id := "B"
    name := "Song B"
    artists := ["Artist"]
    artist_ids := []
    album := "Alb"
    album_art := none
    duration_ms := 200000
    played_at := ⟨900, 1, 0⟩
    played_at_rounded := ⟨900, 0, 0⟩
    created_at := ⟨899, 0, 0⟩
    device_name := none
    device_type := none
    context_type := none
    context_uri := none
    shuffle_state := none }

/-- Track "B" with one recorded listen. -/
def trackDup : TrackDoc :=
  { track_id := "B"
    name := "Song B"
    artists := ["Artist"]
    album := "Alb"
    album_art := none
    listen_count := 1 }

/-- A state where the play reported by `envPlay` is already durably recorded
(e.g. by an earlier backfill) while the Last-Track Marker holds a different
track, so the cycle classifies the poll as a new listen. -/
def sDup : SysState :=
  { plays := [docDup]
    tracks := [trackDup]
    nowPlayingCache := none
    svgCache := none
    albumArt := []
    lastTrack := some "A" }

/-! ### Store lemmas -/

theorem playMatches_applySet (tid : String) (b : DateTime) (p : PlayInput) (d : PlayDoc)
    (h : playMatches tid b d = true) : playMatches tid b (applySet p b d) = true := by
  simp only [playMatches, applySet, Bool.and_eq_true, beq_iff_eq] at h ⊢
  exact ⟨h.1, trivial⟩

theorem playMatches_newPlayDoc (p : PlayInput) (b : DateTime) (now : DateTime) :
    playMatches p.track_id b (newPlayDoc p b now) = true := by
  simp [playMatches, newPlayDoc]

theorem findPlay_append_of_none (l : List PlayDoc) (d : PlayDoc) (tid : String)
    (b : DateTime) (h : findPlay l tid b = none) :
    findPlay (l ++ [d]) tid b =
      if playMatches tid b d = true then some d else none := by
  unfold findPlay at h ⊢
  rw [List.find?_append, h, Option.none_or]
  by_cases hm : playMatches tid b d = true
  · rw [List.find?_cons_of_pos _ hm, if_pos hm]
  · rw [List.find?_cons_of_neg _ hm, List.find?_nil, if_neg hm]

theorem countKey_eq_zero_of_none (l : List PlayDoc) (tid : String) (b : DateTime)
    (h : findPlay l tid b = none) : countKey l tid b = 0 := by
  unfold findPlay at h
  rw [List.find?_eq_none] at h
  unfold countKey
  rw [List.filter_eq_nil_iff.mpr (fun a ha => by simpa using h a ha)]
  rfl

theorem countKey_append_single (l : List PlayDoc) (d : PlayDoc) (tid : String)
    (b : DateTime) :
    countKey (l ++ [d]) tid b =
      countKey l tid b + (if playMatches tid b d then 1 else 0) := by
  unfold countKey
  rw [List.filter_append, List.length_append]
  cases hm : playMatches tid b d <;> simp [hm]

theorem findPlay_updateMatching (l : List PlayDoc) (tid : String) (b : DateTime)
    (f : PlayDoc → PlayDoc)
    (hf : ∀ d, playMatches tid b d = true → playMatches tid b (f d) = true) :
    findPlay (updateMatching l tid b f) tid b = (findPlay l tid b).map f := by
  induction l with
  | nil => rfl
  | cons hd tl ih =>
      show List.find? (playMatches tid b)
          ((if playMatches tid b hd = true then f hd else hd) :: updateMatching tl tid b f)
        = (List.find? (playMatches tid b) (hd :: tl)).map f
      by_cases hm : playMatches tid b hd = true
      · rw [if_pos hm, List.find?_cons_of_pos _ (hf hd hm), List.find?_cons_of_pos _ hm]
        rfl
      · rw [if_neg hm, List.find?_cons_of_neg _ hm, List.find?_cons_of_neg _ hm]
        exact ih

theorem countKey_updateMatching (l : List PlayDoc) (tid : String) (b : DateTime)
    (f : PlayDoc → PlayDoc)
    (hf : ∀ d, playMatches tid b d = true → playMatches tid b (f d) = true) :
    countKey (updateMatching l tid b f) tid b = countKey l tid b := by
  induction l with
  | nil => rfl
  | cons hd tl ih =>
      show (List.filter (playMatches tid b)
          ((if playMatches tid b hd = true then f hd else hd) :: updateMatching tl tid b f)).length
        = (List.filter (playMatches tid b) (hd :: tl)).length
      by_cases hm : playMatches tid b hd = true
      · rw [if_pos hm, List.filter_cons_of_pos (hf hd hm), List.filter_cons_of_pos hm,
          List.length_cons, List.length_cons]
        exact congrArg (fun n => n + 1) ih
      · rw [if_neg hm, List.filter_cons_of_neg hm, List.filter_cons_of_neg hm]
        exact ih

/-! ### C1: idempotent play ingestion -/

/-- C1: Play ingestion is idempotent: starting from a store with no document
for the key, upserting a play and then upserting again with the same track
identifier and the same dedup bucket yields exactly one stored Play for that
key; the first call reports an insertion (`true`), the second reports no
insertion (`false`) and the surviving document is exactly the first-inserted
document with only the `$set` (mutable) fields rewritten — in particular its
`created_at` (and `track_id`) from `$setOnInsert` are untouched. -/
theorem upsert_play_idempotent
    (plays : List PlayDoc) (p q : PlayInput) (n1 n2 : DateTime)
    (ht : q.track_id = p.track_id)
    (hb : playBucket q = playBucket p)
    (habs : findPlay plays p.track_id (playBucket p) = none) :
    (upsert_play n1 plays p).1 = true ∧
    (upsert_play n2 (upsert_play n1 plays p).2 q).1 = false ∧
    countKey (upsert_play n2 (upsert_play n1 plays p).2 q).2
      p.track_id (playBucket p) = 1 ∧
    findPlay (upsert_play n2 (upsert_play n1 plays p).2 q).2
        p.track_id (playBucket p) =
      some (applySet q (playBucket p) (newPlayDoc p (playBucket p) n1)) ∧
    (applySet q (playBucket p) (newPlayDoc p (playBucket p) n1)).created_at = n1 := by
  have h1 : upsert_play n1 plays p =
      (true, plays ++ [newPlayDoc p (playBucket p) n1]) := by
    simp only [upsert_play, habs]
  have hfind1 : findPlay (plays ++ [newPlayDoc p (playBucket p) n1])
      p.track_id (playBucket p) = some (newPlayDoc p (playBucket p) n1) := by
    rw [findPlay_append_of_none _ _ _ _ habs, if_pos (playMatches_newPlayDoc p _ n1)]
  have h2 : upsert_play n2 (plays ++ [newPlayDoc p (playBucket p) n1]) q =
      (false, updateMatching (plays ++ [newPlayDoc p (playBucket p) n1])
        p.track_id (playBucket p) (applySet q (playBucket p))) := by
    simp only [upsert_play, ht, hb, hfind1]
  refine ⟨by rw [h1], ?_, ?_, ?_, rfl⟩
  · rw [h1, h2]
  · rw [h1, h2]
    rw [countKey_updateMatching _ _ _ _ (playMatches_applySet _ _ q),
      countKey_append_single, countKey_eq_zero_of_none _ _ _ habs,
      if_pos (playMatches_newPlayDoc p _ n1)]
  · rw [h1, h2]
    rw [findPlay_updateMatching _ _ _ _ (playMatches_applySet _ _ q), hfind1]
    rfl

theorem upsert_play_idempotent_witness :
    (upsert_play ⟨720, 6, 0⟩ [] pWit).1 = true ∧
    (upsert_play ⟨720, 43, 0⟩ (upsert_play ⟨720, 6, 0⟩ [] pWit).2 pWit).1 = false ∧
    countKey (upsert_play ⟨720, 43, 0⟩ (upsert_play ⟨720, 6, 0⟩ [] pWit).2 pWit).2
      pWit.track_id (playBucket pWit) = 1 :=
  ⟨(upsert_play_idempotent [] pWit pWit ⟨720, 6, 0⟩ ⟨720, 43, 0⟩ rfl rfl rfl).1,
   (upsert_play_idempotent [] pWit pWit ⟨720, 6, 0⟩ ⟨720, 43, 0⟩ rfl rfl rfl).2.1,
   (upsert_play_idempotent [] pWit pWit ⟨720, 6, 0⟩ ⟨720, 43, 0⟩ rfl rfl rfl).2.2.1⟩

/-! ### C9: optional fields never overwritten with null -/

/-- C9: For an upsert that matches an existing Play document, each of the
five optional fields (device name, device type, context type, context URI,
shuffle state) is written only when present in the payload and keeps its
previously stored value when the payload omits it, while the rule leaves all
other stored fields alone: the unconditional `$set` fields take the payload's
values and `created_at` / `track_id` are untouched. -/
theorem upsert_play_optional_fields
    (plays : List PlayDoc) (p : PlayInput) (old : PlayDoc) (now : DateTime)
    (hfound : findPlay plays p.track_id (playBucket p) = some old) :
    (upsert_play now plays p).1 = false ∧
    findPlay (upsert_play now plays p).2 p.track_id (playBucket p)
      = some (applySet p (playBucket p) old) ∧
    (applySet p (playBucket p) old).device_name
      = (match p.device_name with | some v => some v | none => old.device_name) ∧
    (applySet p (playBucket p) old).device_type
      = (match p.device_type with | some v => some v | none => old.device_type) ∧
    (applySet p (playBucket p) old).context_type
      = (match p.context_type with | some v => some v | none => old.context_type) ∧
    (applySet p (playBucket p) old).context_uri
      = (match p.context_uri with | some v => some v | none => old.context_uri) ∧
    (applySet p (playBucket p) old).shuffle_state
      = (match p.shuffle_state with | some v => some v | none => old.shuffle_state) ∧
    (applySet p (playBucket p) old).created_at = old.created_at ∧
    (applySet p (playBucket p) old).track_id = old.track_id ∧
    (applySet p (playBucket p) old).name = p.name ∧
    (applySet p (playBucket p) old).artists = p.artists ∧
    (applySet p (playBucket p) old).artist_ids = p.artist_ids ∧
    (applySet p (playBucket p) old).album = p.album ∧
    (applySet p (playBucket p) old).album_art = p.album_art ∧
    (applySet p (playBucket p) old).duration_ms = p.duration_ms ∧
    (applySet p (playBucket p) old).played_at = p.played_at := by
  have h1 : upsert_play now plays p =
      (false, updateMatching plays p.track_id (playBucket p)
        (applySet p (playBucket p))) := by
    simp only [upsert_play, hfound]
  refine ⟨by rw [h1], ?_, rfl, rfl, rfl, rfl, rfl, rfl, rfl, rfl, rfl, rfl, rfl, rfl,
    rfl, rfl⟩
  rw [h1]
  rw [findPlay_updateMatching _ _ _ _ (playMatches_applySet _ _ p), hfound]
  rfl

theorem upsert_play_optional_fields_witness :
    (upsert_play ⟨801, 0, 0⟩ [dWit] pWit9).1 = false ∧
    (applySet pWit9 (playBucket pWit9) dWit).device_name = some "Phone" ∧
    (applySet pWit9 (playBucket pWit9) dWit).shuffle_state = some true ∧
    (applySet pWit9 (playBucket pWit9) dWit).created_at = ⟨799, 0, 0⟩ ∧
    (applySet pWit9 (playBucket pWit9) dWit).name = "New Name" :=
  ⟨(upsert_play_optional_fields [dWit] pWit9 dWit ⟨801, 0, 0⟩ (by decide)).1,
   (upsert_play_optional_fields [dWit] pWit9 dWit ⟨801, 0, 0⟩ (by decide)).2.2.1,
   (upsert_play_optional_fields [dWit] pWit9 dWit ⟨801, 0, 0⟩ (by decide)).2.2.2.2.2.2.1,
   (upsert_play_optional_fields [dWit] pWit9 dWit ⟨801, 0, 0⟩ (by decide)).2.2.2.2.2.2.2.1,
   (upsert_play_optional_fields [dWit] pWit9 dWit ⟨801, 0, 0⟩ (by decide)).2.2.2.2.2.2.2.2.2.1⟩

/-! ### C7: dedup bucket truncation -/

/-- C7: When no `played_at_rounded` is supplied, the dedup bucket is the
exact `played_at` truncated to the minute (second and microsecond zeroed);
consequently two ingestions of the same track with `played_at` in the same
minute collapse into one Play whose bucket is the zeroed minute, and a third
ingestion of the same track in a different minute inserts a second distinct
Play with that minute's zeroed bucket. -/
theorem dedup_bucket_truncates_to_minute
    (p1 p2 p3 : PlayInput) (n1 n2 n3 : DateTime)
    (ht2 : p2.track_id = p1.track_id) (_ht3 : p3.track_id = p1.track_id)
    (hr1 : p1.played_at_rounded = none) (hr2 : p2.played_at_rounded = none)
    (hr3 : p3.played_at_rounded = none)
    (hm12 : p2.played_at.minute = p1.played_at.minute)
    (hm3 : p3.played_at.minute ≠ p1.played_at.minute) :
    playBucket p1 = ⟨p1.played_at.minute, 0, 0⟩ ∧
    (upsert_play n1 [] p1).1 = true ∧
    (upsert_play n2 (upsert_play n1 [] p1).2 p2).1 = false ∧
    (upsert_play n2 (upsert_play n1 [] p1).2 p2).2
      = [applySet p2 (playBucket p2) (newPlayDoc p1 (playBucket p1) n1)] ∧
    (applySet p2 (playBucket p2) (newPlayDoc p1 (playBucket p1) n1)).played_at_rounded
      = ⟨p1.played_at.minute, 0, 0⟩ ∧
    (upsert_play n3 (upsert_play n2 (upsert_play n1 [] p1).2 p2).2 p3).1 = true ∧
    (upsert_play n3 (upsert_play n2 (upsert_play n1 [] p1).2 p2).2 p3).2
      = [applySet p2 (playBucket p2) (newPlayDoc p1 (playBucket p1) n1),
         newPlayDoc p3 (playBucket p3) n3] ∧
    (newPlayDoc p3 (playBucket p3) n3).played_at_rounded
      = ⟨p3.played_at.minute, 0, 0⟩ ∧
    (upsert_play n3 (upsert_play n2 (upsert_play n1 [] p1).2 p2).2 p3).2.length = 2 := by
  have hb1 : playBucket p1 = ⟨p1.played_at.minute, 0, 0⟩ := by
    simp [playBucket, hr1, truncToMinute]
  have hb2 : playBucket p2 = ⟨p1.played_at.minute, 0, 0⟩ := by
    simp [playBucket, hr2, truncToMinute, hm12]
  have hb3 : playBucket p3 = ⟨p3.played_at.minute, 0, 0⟩ := by
    simp [playBucket, hr3, truncToMinute]
  have h1 : upsert_play n1 [] p1 = (true, [newPlayDoc p1 (playBucket p1) n1]) := by
    simp [upsert_play, findPlay]
  have hmatch2 : playMatches p2.track_id (playBucket p2)
      (newPlayDoc p1 (playBucket p1) n1) = true := by
    simp [playMatches, newPlayDoc, ht2, hb1, hb2]
  have hfind2 : findPlay [newPlayDoc p1 (playBucket p1) n1] p2.track_id (playBucket p2)
      = some (newPlayDoc p1 (playBucket p1) n1) := by
    unfold findPlay
    rw [List.find?_cons_of_pos _ hmatch2]
  have h2 : upsert_play n2 [newPlayDoc p1 (playBucket p1) n1] p2
      = (false, [applySet p2 (playBucket p2) (newPlayDoc p1 (playBucket p1) n1)]) := by
    simp only [upsert_play, hfind2]
    unfold updateMatching
    rw [List.map_cons, List.map_nil, if_pos hmatch2]
  have hround2 : (applySet p2 (playBucket p2)
      (newPlayDoc p1 (playBucket p1) n1)).played_at_rounded
      = ⟨p1.played_at.minute, 0, 0⟩ := by
    simp [applySet, hb2]
  have hrne : (((⟨p1.played_at.minute, 0, 0⟩ : DateTime))
      == ((⟨p3.played_at.minute, 0, 0⟩ : DateTime))) = false := by
    rw [beq_eq_false_iff_ne]
    intro h
    exact hm3 (congrArg DateTime.minute h).symm
  have hnm : playMatches p3.track_id (playBucket p3)
      (applySet p2 (playBucket p2) (newPlayDoc p1 (playBucket p1) n1)) = false := by
    unfold playMatches
    rw [hround2, hb3, hrne, Bool.and_false]
  have hneg : ¬ (playMatches p3.track_id (playBucket p3)
      (applySet p2 (playBucket p2) (newPlayDoc p1 (playBucket p1) n1)) = true) := by
    simp [hnm]
  have hfind3 : findPlay [applySet p2 (playBucket p2) (newPlayDoc p1 (playBucket p1) n1)]
      p3.track_id (playBucket p3) = none := by
    unfold findPlay
    rw [List.find?_cons_of_neg _ hneg, List.find?_nil]
  have h3 : upsert_play n3 [applySet p2 (playBucket p2) (newPlayDoc p1 (playBucket p1) n1)] p3
      = (true, [applySet p2 (playBucket p2) (newPlayDoc p1 (playBucket p1) n1),
          newPlayDoc p3 (playBucket p3) n3]) := by
    simp only [upsert_play, hfind3]
    rfl
  refine ⟨hb1, by rw [h1], ?_, ?_, hround2, ?_, ?_, ?_, ?_⟩
  · rw [h1, h2]
  · rw [h1, h2]
  · rw [h1, h2, h3]
  · rw [h1, h2, h3]
  · simp [newPlayDoc, hb3]
  · rw [h1, h2, h3]
    rfl

theorem dedup_bucket_truncates_to_minute_witness :
    playBucket pDedup1 = ⟨720, 0, 0⟩ ∧
    (upsert_play ⟨720, 6, 0⟩ [] pDedup1).1 = true ∧
    (upsert_play ⟨720, 43, 0⟩ (upsert_play ⟨720, 6, 0⟩ [] pDedup1).2 pDedup2).1 = false ∧
    (upsert_play ⟨721, 6, 0⟩
      (upsert_play ⟨720, 43, 0⟩ (upsert_play ⟨720, 6, 0⟩ [] pDedup1).2 pDedup2).2
      pDedup3).1 = true ∧
    (upsert_play ⟨721, 6, 0⟩
      (upsert_play ⟨720, 43, 0⟩ (upsert_play ⟨720, 6, 0⟩ [] pDedup1).2 pDedup2).2
      pDedup3).2.length = 2 :=
  ⟨(dedup_bucket_truncates_to_minute pDedup1 pDedup2 pDedup3 ⟨720, 6, 0⟩ ⟨720, 43, 0⟩
      ⟨721, 6, 0⟩ rfl rfl rfl rfl rfl rfl (by decide)).1,
   (dedup_bucket_truncates_to_minute pDedup1 pDedup2 pDedup3 ⟨720, 6, 0⟩ ⟨720, 43, 0⟩
      ⟨721, 6, 0⟩ rfl rfl rfl rfl rfl rfl (by decide)).2.1,
   (dedup_bucket_truncates_to_minute pDedup1 pDedup2 pDedup3 ⟨720, 6, 0⟩ ⟨720, 43, 0⟩
      ⟨721, 6, 0⟩ rfl rfl rfl rfl rfl rfl (by decide)).2.2.1,
   (dedup_bucket_truncates_to_minute pDedup1 pDedup2 pDedup3 ⟨720, 6, 0⟩ ⟨720, 43, 0⟩
      ⟨721, 6, 0⟩ rfl rfl rfl rfl rfl rfl (by decide)).2.2.2.2.2.1,
   (dedup_bucket_truncates_to_minute pDedup1 pDedup2 pDedup3 ⟨720, 6, 0⟩ ⟨720, 43, 0⟩
      ⟨721, 6, 0⟩ rfl rfl rfl rfl rfl rfl (by decide)).2.2.2.2.2.2.2.2⟩

/-! ### C6: cache TTL -/

/-- C6 refuted as stated: for duration 200000 ms and progress 10000 ms the
claim says the TTL equals 190 seconds, but the cycle stores both cache
entries with TTL `max((200000 - 10000) // 1000 + 30, 60) = 220` seconds. -/
theorem poll_cache_ttl_cex :
    (poll_current_playback envPlay s0).state.nowPlayingCache = some (npLive, 220) ∧
    (poll_current_playback envPlay s0).state.svgCache
      = some (generate_now_playing_svg "Song B" "Artist" none true, 220) ∧
    (220 : Int) ≠ 190 := by
  refine ⟨?_, ?_, by decide⟩ <;> decide

/-- C6 (amended): on every successful live poll where something is playing,
the now-playing snapshot and the rendered display payload are stored with the
identical TTL `max((duration_ms - progress_ms) // 1000 + 30, 60)` seconds;
for duration 200000 ms and progress 170000 ms this is 60 seconds (the floor),
and for progress 10000 ms it is 220 seconds (not 190). -/
theorem poll_cache_ttl (env : PollEnv) (s : SysState) (d : PlaybackData)
    (htok : env.hasToken = true) (hp : env.playback = .playing d) :
    (poll_current_playback env s).state.nowPlayingCache
      = some (d.now_playing, cacheTtl d.now_playing) ∧
    (poll_current_playback env s).state.svgCache
      = some (generate_now_playing_svg d.now_playing.title d.now_playing.artist
          d.now_playing.album_art d.now_playing.is_playing, cacheTtl d.now_playing) ∧
    cacheTtl ⟨"t", "a", "al", none, true, 170000, 200000⟩ = 60 ∧
    cacheTtl ⟨"t", "a", "al", none, true, 10000, 200000⟩ = 220 := by
  refine ⟨?_, ?_, by decide, by decide⟩ <;>
  · unfold poll_current_playback
    by_cases hl : s.lastTrack = some d.play.track_id <;>
    by_cases hdb : env.dbFails = true <;>
    simp [pollBody, htok, hp, hl, hdb]

theorem poll_cache_ttl_witness :
    (poll_current_playback envPlay s0).state.nowPlayingCache
      = some (npLive, cacheTtl npLive) ∧
    cacheTtl ⟨"t", "a", "al", none, true, 170000, 200000⟩ = 60 :=
  ⟨(poll_cache_ttl envPlay s0 ⟨npLive, playLive⟩ rfl rfl).1,
   (poll_cache_ttl envPlay s0 ⟨npLive, playLive⟩ rfl rfl).2.2.1⟩

/-! ### C8: timeout is a soft failure -/

/-- C8: when the external current-playback call exceeds its timeout bound,
the cycle returns an error status record instead of raising, mutates no state
at all (plays, tracks, caches and marker are untouched), made no counted
request, and is still rescheduled exactly once at the default 1-unit
delay. -/
theorem poll_timeout_soft_failure (env : PollEnv) (s : SysState)
    (htok : env.hasToken = true) (hp : env.playback = .timeout)
    (hsch : env.schedulerPresent = true) :
    (poll_current_playback env s).result
      = ⟨.error, some "spotify api timeout", none, none⟩ ∧
    (poll_current_playback env s).state = s ∧
    (poll_current_playback env s).events = [Event.scheduleNext 1] ∧
    (poll_current_playback env s).requests = 0 := by
  unfold poll_current_playback scheduleNextPoll
  simp [pollBody, htok, hp, hsch]

theorem poll_timeout_soft_failure_witness :
    (poll_current_playback envTimeout s0).state = s0 ∧
    (poll_current_playback envTimeout s0).events = [Event.scheduleNext 1] :=
  ⟨(poll_timeout_soft_failure envTimeout s0 rfl rfl rfl).2.1,
   (poll_timeout_soft_failure envTimeout s0 rfl rfl rfl).2.2.1⟩

/-! ### C4: reschedule exactly once per cycle -/

theorem pollBody_no_schedule (env : PollEnv) (s : SysState) :
    (pollBody env s).2.2.1.filter isSchedule = [] := by
  unfold pollBody
  cases htok : env.hasToken with
  | false => simp [isSchedule]
  | true =>
      cases hp : env.playback with
      | timeout => simp [isSchedule]
      | raised => simp [isSchedule]
      | nothing => simp [isSchedule]
      | playing d =>
          by_cases hl : s.lastTrack = some d.play.track_id
          · simp [hl, isSchedule]
          · by_cases hdb : env.dbFails = true
            · simp [hl, hdb, isSchedule]
            · simp [hl, hdb, isSchedule]

/-- C4: with the scheduler handle set, every live-poll cycle — skipped for a
missing token, timed out, raised, nothing playing, same track, or a new
listen — reschedules the next poll exactly once, as the last action of the
cycle, with delay 2 time-units when the cycle made more than one external
request and 1 time-unit otherwise. -/
theorem poll_reschedules_exactly_once (env : PollEnv) (s : SysState)
    (hsch : env.schedulerPresent = true) :
    (poll_current_playback env s).events.filter isSchedule
      = [Event.scheduleNext
          (if (poll_current_playback env s).requests > 1 then 2 else 1)] ∧
    (poll_current_playback env s).events.getLast?
      = some (Event.scheduleNext
          (if (poll_current_playback env s).requests > 1 then 2 else 1)) := by
  have hev : (poll_current_playback env s).events
      = (pollBody env s).2.2.1
        ++ [Event.scheduleNext (if (pollBody env s).2.2.2 > 1 then 2 else 1)] := by
    simp [poll_current_playback, scheduleNextPoll, hsch]
  have hreq : (poll_current_playback env s).requests = (pollBody env s).2.2.2 := rfl
  constructor
  · rw [hreq, hev, List.filter_append, pollBody_no_schedule]
    simp [isSchedule]
  · rw [hreq, hev]
    exact List.getLast?_concat _

theorem poll_reschedules_exactly_once_witness :
    (poll_current_playback envPlay s0).events.filter isSchedule
      = [Event.scheduleNext
          (if (poll_current_playback envPlay s0).requests > 1 then 2 else 1)] :=
  (poll_reschedules_exactly_once envPlay s0 rfl).1

/-! ### C5: in-cycle ordering of cache, store and marker writes -/

/-- C5 refuted as stated: in a concrete new-listen cycle the cache update is
NOT "only after the Play upsert has committed" — the cache write sits at
trace index 1 while the Play upsert sits at index 5. -/
theorem cache_update_not_after_play_upsert :
    ¬ (∀ i j : Nat,
        (poll_current_playback envPlay s0).events.findIdx? isPlayWrite = some i →
        (poll_current_playback envPlay s0).events.findIdx? isCacheWrite = some j →
        i < j) := by
  intro h
  have h51 := h 5 1 (by decide) (by decide)
  omega

/-- C5 (amended): within every live-poll cycle in which a new listen is
detected (and the durable-store block does not fail), the cache update
(trace index 1) and the rendered display payload (index 2) happen BEFORE the
corresponding Play upsert (index 5), not after it; the Last-Track Marker
(index 6) is updated only after the Play (index 5) and Track (index 4)
writes have succeeded. -/
theorem new_listen_cycle_ordering (env : PollEnv) (s : SysState) (d : PlaybackData)
    (htok : env.hasToken = true) (hp : env.playback = .playing d)
    (hnew : ¬ s.lastTrack = some d.play.track_id) (hdb : env.dbFails = false) :
    (poll_current_playback env s).events.findIdx? isCacheWrite = some 1 ∧
    (poll_current_playback env s).events.findIdx? isTrackWrite = some 4 ∧
    (poll_current_playback env s).events.findIdx? isPlayWrite = some 5 ∧
    (poll_current_playback env s).events.findIdx? isMarkerWrite = some 6 := by
  unfold poll_current_playback
  simp [pollBody, htok, hp, hnew, hdb, scheduleNextPoll, List.findIdx?_cons,
    isCacheWrite, isTrackWrite, isPlayWrite, isMarkerWrite]

theorem new_listen_cycle_ordering_witness :
    (poll_current_playback envPlay s0).events.findIdx? isCacheWrite = some 1 ∧
    (poll_current_playback envPlay s0).events.findIdx? isPlayWrite = some 5 :=
  ⟨(new_listen_cycle_ordering envPlay s0 ⟨npLive, playLive⟩ rfl rfl (by decide) rfl).1,
   (new_listen_cycle_ordering envPlay s0 ⟨npLive, playLive⟩ rfl rfl (by decide) rfl).2.2.1⟩

/-! ### C2: increment only on genuinely new Play insertions -/

/-- C2 is violated by the live-poll path: in a state where the reported play
("B", bucket ⟨900, 0, 0⟩) is already durably recorded (here with
`listen_count = 1`) but the Last-Track Marker holds a different track, the
cycle calls the Track upsert with `increment_count=True` before consulting
the Play upsert, so `listen_count` rises to 2 even though `insert_play`
matched the existing document (no new Play: the store keeps exactly one
document). -/
theorem live_poll_increments_despite_duplicate_play :
    (insert_play envPlay.now sDup.plays playLive).1 = false ∧
    (poll_current_playback envPlay sDup).state.plays.length = 1 ∧
    listenCountOf sDup.tracks "B" = 1 ∧
    listenCountOf (poll_current_playback envPlay sDup).state.tracks "B" = 2 ∧
    Event.trackUpsert "B" true ∈ (poll_current_playback envPlay sDup).events ∧
    Event.playUpsert "B" false ∈ (poll_current_playback envPlay sDup).events := by
  decide

/-! ### Track-upsert lemmas -/

theorem find?_map_track_preserving (l : List TrackDoc) (f : TrackDoc → TrackDoc)
    (tid : String) (hf : ∀ t, (f t).track_id = t.track_id) :
    (l.map f).find? (fun t => t.track_id == tid)
      = (l.find? (fun t => t.track_id == tid)).map f := by
  induction l with
  | nil => rfl
  | cons hd tl ih =>
      rw [List.map_cons]
      by_cases h : (hd.track_id == tid) = true
      · rw [List.find?_cons_of_pos (p := fun t : TrackDoc => t.track_id == tid) _
            (by show ((f hd).track_id == tid) = true
                rw [hf hd]
                exact h),
          List.find?_cons_of_pos (p := fun t : TrackDoc => t.track_id == tid) _ h]
        rfl
      · rw [List.find?_cons_of_neg (p := fun t : TrackDoc => t.track_id == tid) _
            (by show ¬ ((f hd).track_id == tid) = true
                rw [hf hd]
                exact h),
          List.find?_cons_of_neg (p := fun t : TrackDoc => t.track_id == tid) _ h]
        exact ih

theorem upsert_track_false_count (ts : List TrackDoc) (p : PlayInput) (tid : String) :
    listenCountOf (upsert_track ts p false).2 tid = listenCountOf ts tid := by
  unfold upsert_track
  cases hf : ts.find? (fun t => t.track_id == p.track_id) with
  | some t =>
      unfold listenCountOf
      rw [find?_map_track_preserving _ _ tid
        (fun u => by by_cases hu : u.track_id = p.track_id <;> simp [hu])]
      cases hft : ts.find? (fun u => u.track_id == tid) with
      | some u =>
          by_cases hu : u.track_id = p.track_id <;> simp [hu]
      | none => rfl
  | none =>
      unfold listenCountOf
      rw [List.find?_append]
      cases hft : ts.find? (fun u => u.track_id == tid) with
      | some u => rfl
      | none =>
          by_cases hm : (p.track_id == tid) = true
          · rw [Option.none_or, List.find?_cons_of_pos _ (by simpa using hm)]
            rfl
          · rw [Option.none_or, List.find?_cons_of_neg _ (by simpa using hm),
              List.find?_nil]

/-! ### C3: backfill does not inflate counts -/

/-- C3: if the play is already recorded in the durable store (its
(track_id, bucket) key matches an existing document), running the backfill
job over a history window containing that play leaves every track's
`listen_count` unchanged, reports 0 inserted and 1 skipped, and its
per-item record marks the item as a duplicate with no count increment. -/
theorem backfill_duplicate_not_counted (s : SysState) (p : PlayInput)
    (now : DateTime) (old : PlayDoc)
    (hfound : findPlay s.plays p.track_id (playBucket p) = some old) :
    (poll_recently_played ⟨true, [p], now⟩ s).1
      = ⟨.ok, none, 0, 1⟩ ∧
    (poll_recently_played ⟨true, [p], now⟩ s).2.2
      = [⟨p.track_id, false, false⟩] ∧
    ∀ tid, listenCountOf (poll_recently_played ⟨true, [p], now⟩ s).2.1.tracks tid
      = listenCountOf s.tracks tid := by
  have hins : insert_play now s.plays p
      = (false, updateMatching s.plays p.track_id (playBucket p)
          (applySet p (playBucket p))) := by
    simp only [insert_play, upsert_play, hfound]
  have h : poll_recently_played ⟨true, [p], now⟩ s
      = (⟨.ok, none, 0, 1⟩,
         { s with plays := (insert_play now s.plays p).2,
                  tracks := (upsert_track s.tracks p false).2 },
         [⟨p.track_id, false, false⟩]) := by
    unfold poll_recently_played backfillStep
    simp [hins]
  refine ⟨by rw [h], by rw [h], ?_⟩
  intro tid
  rw [h]
  exact upsert_track_false_count s.tracks p tid

theorem backfill_duplicate_not_counted_witness :
    (poll_recently_played ⟨true, [playLive], ⟨901, 0, 0⟩⟩ sDup).1
      = ⟨.ok, none, 0, 1⟩ ∧
    listenCountOf
        (poll_recently_played ⟨true, [playLive], ⟨901, 0, 0⟩⟩ sDup).2.1.tracks "B"
      = listenCountOf sDup.tracks "B" :=
  ⟨(backfill_duplicate_not_counted sDup playLive ⟨901, 0, 0⟩ docDup (by decide)).1,
   (backfill_duplicate_not_counted sDup playLive ⟨901, 0, 0⟩ docDup (by decide)).2.2 "B"⟩

/-! ### C10: backfill loop accounting -/

theorem backfill_fold_spec (now : DateTime) (items : List PlayInput) :
    ∀ (s : SysState) (ins skp : Nat) (outs : List ItemOutcome),
    (∀ o ∈ outs, o.incremented = o.wasNew) →
    ((items.foldl (backfillStep now) (s, ins, skp, outs)).2.1
        + (items.foldl (backfillStep now) (s, ins, skp, outs)).2.2.1
      = ins + skp + items.length) ∧
    ((items.foldl (backfillStep now) (s, ins, skp, outs)).2.2.2.map ItemOutcome.track_id
      = outs.map ItemOutcome.track_id ++ items.map PlayInput.track_id) ∧
    (∀ o ∈ (items.foldl (backfillStep now) (s, ins, skp, outs)).2.2.2,
      o.incremented = o.wasNew) := by
  induction items with
  | nil =>
      intro s ins skp outs houts
      exact ⟨by simp, by simp, by simpa using houts⟩
  | cons hd tl ih =>
      intro s ins skp outs houts
      rw [List.foldl_cons]
      by_cases hnew : (insert_play now s.plays hd).1 = true
      · have hstep : backfillStep now (s, ins, skp, outs) hd
            = ({ s with plays := (insert_play now s.plays hd).2,
                        tracks := (upsert_track s.tracks hd true).2 },
               ins + 1, skp, outs ++ [⟨hd.track_id, true, true⟩]) := by
          simp [backfillStep, hnew]
        rw [hstep]
        obtain ⟨ha, hb, hc⟩ := ih
          { s with plays := (insert_play now s.plays hd).2,
                   tracks := (upsert_track s.tracks hd true).2 }
          (ins + 1) skp (outs ++ [⟨hd.track_id, true, true⟩])
          (by intro o ho
              rcases List.mem_append.1 ho with hmem | hmem
              · exact houts o hmem
              · simp only [List.mem_singleton] at hmem
                subst hmem
                rfl)
        refine ⟨?_, ?_, hc⟩
        · simp only [List.length_cons]
          omega
        · rw [hb, List.map_append]
          simp
      · have hnew' : (insert_play now s.plays hd).1 = false := by
          revert hnew
          cases (insert_play now s.plays hd).1 <;> simp
        have hstep : backfillStep now (s, ins, skp, outs) hd
            = ({ s with plays := (insert_play now s.plays hd).2,
                        tracks := (upsert_track s.tracks hd false).2 },
               ins, skp + 1, outs ++ [⟨hd.track_id, false, false⟩]) := by
          simp [backfillStep, hnew']
        rw [hstep]
        obtain ⟨ha, hb, hc⟩ := ih
          { s with plays := (insert_play now s.plays hd).2,
                   tracks := (upsert_track s.tracks hd false).2 }
          ins (skp + 1) (outs ++ [⟨hd.track_id, false, false⟩])
          (by intro o ho
              rcases List.mem_append.1 ho with hmem | hmem
              · exact houts o hmem
              · simp only [List.mem_singleton] at hmem
                subst hmem
                rfl)
        refine ⟨?_, ?_, hc⟩
        · simp only [List.length_cons]
          omega
        · rw [hb, List.map_append]
          simp

/-- C10: for every non-empty page of history items, the backfill job returns
`ok` with inserted and skipped counts summing to the number of items, each
item is upserted exactly once (the per-item records list the items' track
identifiers in order), and the track-statistics upsert is invoked with the
count increment enabled exactly when that item's Play upsert created a new
document. -/
theorem backfill_counts (env : BackfillEnv) (s : SysState)
    (htok : env.hasToken = true) (hne : env.items ≠ []) :
    (poll_recently_played env s).1.status = .ok ∧
    (poll_recently_played env s).1.inserted + (poll_recently_played env s).1.skipped
      = env.items.length ∧
    (poll_recently_played env s).2.2.map ItemOutcome.track_id
      = env.items.map PlayInput.track_id ∧
    ∀ o ∈ (poll_recently_played env s).2.2, o.incremented = o.wasNew := by
  have hempty : env.items.isEmpty = false := List.isEmpty_eq_false.mpr hne
  have h : poll_recently_played env s
      = (⟨.ok, none,
          (env.items.foldl (backfillStep env.now) (s, 0, 0, [])).2.1,
          (env.items.foldl (backfillStep env.now) (s, 0, 0, [])).2.2.1⟩,
         (env.items.foldl (backfillStep env.now) (s, 0, 0, [])).1,
         (env.items.foldl (backfillStep env.now) (s, 0, 0, [])).2.2.2) := by
    simp [poll_recently_played, htok, hempty]
  obtain ⟨ha, hb, hc⟩ := backfill_fold_spec env.now env.items s 0 0 []
    (by intro o ho; exact absurd ho (List.not_mem_nil o))
  refine ⟨by rw [h], ?_, ?_, ?_⟩
  · rw [h]
    simpa using ha
  · rw [h]
    simpa using hb
  · rw [h]
    exact hc

theorem backfill_counts_witness :
    (poll_recently_played ⟨true, [playLive], ⟨901, 0, 0⟩⟩ s0).1.status = .ok ∧
    (poll_recently_played ⟨true, [playLive], ⟨901, 0, 0⟩⟩ s0).1.inserted
        + (poll_recently_played ⟨true, [playLive], ⟨901, 0, 0⟩⟩ s0).1.skipped
      = 1 :=
  ⟨(backfill_counts ⟨true, [playLive], ⟨901, 0, 0⟩⟩ s0 rfl (by decide)).1,
   (backfill_counts ⟨true, [playLive], ⟨901, 0, 0⟩⟩ s0 rfl (by decide)).2.1⟩

end Hoardify
